import Mathlib

/-!
# Verification of `status-line` (src/lib.rs)

A shallow embedding of the `status-line` crate: a status line wraps arbitrary
displayable data, a background thread periodically redraws it to stderr, and
the public API toggles visibility, forces refreshes, and erases on drop.

Terminal output is modelled as the byte sequence (a `String`) written to the
standard error stream; the `Display` implementation of the wrapped data is
modelled as a function `render : D → String`.
-/

namespace StatusLineSpec

/-- Modelled from the spec: the "erase from cursor to end of screen" control
sequence. The byte value comes from the external `ansi_escapes` crate
(`EraseDown`), which is not part of this repository. -/
def EraseDown : String := "\x1b[J"

/-- Modelled from the spec: the "move cursor to column 0" control sequence,
from the external `ansi_escapes` crate (`CursorLeft`). -/
def CursorLeft : String := "\x1b[G"

/-- Modelled from the spec: the "move cursor up one line" control sequence,
from the external `ansi_escapes` crate (`CursorPrevLine`). -/
def CursorPrevLine : String := "\x1b[F"

/-- Number of newline characters in a string:
`contents.chars().filter(|c| *c == '\n').count()` in `redraw`. -/
def newlineCount (s : String) : Nat :=
  (s.toList.filter (fun c => c = '\n')).length

/-- Concatenation of a list of strings, in order. -/
def concatAll : List String → String
  | [] => ""
  | w :: ws => w ++ concatAll ws

/-- The sequence of `write!` calls performed by `redraw` (src/lib.rs, lines
55-68), each list element being the bytes of one fallible write call.
With ANSI enabled: one write of `EraseDown`, the contents and `CursorLeft`,
followed by one write of `CursorPrevLine` per newline in the contents.
With ANSI disabled: a single `writeln!` of the contents. -/
def redrawWrites (ansi : Bool) (contents : String) : List String :=
  if ansi then
    (EraseDown ++ contents ++ CursorLeft)
      :: List.replicate (newlineCount contents) CursorPrevLine
  else
    [contents ++ "\n"]

/-- The total byte sequence `redraw` emits to stderr when every write succeeds. -/
def redrawOut (ansi : Bool) (contents : String) : String :=
  concatAll (redrawWrites ansi contents)

/-- The sequence of `write!` calls performed by `clear` (src/lib.rs, lines
70-76): one write of `EraseDown` when ANSI is enabled, nothing otherwise. -/
def clearWrites (ansi : Bool) : List String :=
  if ansi then [EraseDown] else []

/-- The total byte sequence `clear` emits to stderr. -/
def clearOut (ansi : Bool) : String :=
  concatAll (clearWrites ansi)

/-- Outcome of running a sequence of fallible writes. `ok` carries the full
output; `aborted` records that a write failed and `.unwrap()` panicked,
carrying the bytes flushed before the failure. -/
inductive WriteResult where
  | ok (output : String)
  | aborted (flushed : String)
deriving DecidableEq, Repr

/-- Whether the run ended in the panic caused by `.unwrap()` on a failed write. -/
def WriteResult.isAborted : WriteResult → Bool
  | .ok _ => false
  | .aborted _ => true

/-- Run the writes starting at index `k`; `failAt = some i` means the `i`-th
write call returns an error, on which `.unwrap()` panics immediately:
no retry, no recovery, no continuation. -/
def runWritesFrom (k : Nat) (failAt : Option Nat) : List String → String → WriteResult
  | [], acc => .ok acc
  | w :: ws, acc =>
    if failAt = some k then .aborted acc
    else runWritesFrom (k + 1) failAt ws (acc ++ w)

/-- Run a sequence of write calls against a stream that fails at `failAt`. -/
def runWrites (failAt : Option Nat) (ws : List String) : WriteResult :=
  runWritesFrom 0 failAt ws ""

/-- Shared state (`struct State<D>`, src/lib.rs lines 78-81): the wrapped
data and the atomic visibility flag. -/
structure State (D : Type) where
  data : D
  visible : Bool

/-- `State::new` (src/lib.rs lines 84-89): wraps the data, visibility false. -/
def State.new {D : Type} (d : D) : State D :=
  ⟨d, false⟩

/-- `Options` (src/lib.rs lines 93-109). The refresh period is in milliseconds. -/
structure Options where
  refresh_period : Nat
  initially_visible : Bool
  enable_ansi_escapes : Bool
deriving DecidableEq, Repr

/-- `Default for Options` (src/lib.rs lines 111-121), parametrised by whether
stderr is a TTY (`atty::is`). -/
def Options.defaults (is_tty : Bool) : Options :=
  ⟨if is_tty then 100 else 1000, true, is_tty⟩

/-- `StatusLine<D>` (src/lib.rs lines 124-127): shared state plus options. -/
structure StatusLine (D : Type) where
  state : State D
  options : Options

/-- `StatusLine::with_options` (src/lib.rs lines 136-151), the state part:
creates the shared state via `State::new`, then stores
`options.initially_visible` into the visibility flag. (The spawned
background thread is modelled separately by `loopTrace`.) -/
def with_options {D : Type} (d : D) (options : Options) : StatusLine D :=
  let state := State.new d
  let state2 : State D := ⟨state.data, options.initially_visible⟩
  ⟨state2, options⟩

/-- A call into the terminal layer: `clear` or `redraw` with their arguments. -/
inductive TermCall where
  | eraseCall (ansi : Bool)
  | renderCall (ansi : Bool) (text : String)
deriving DecidableEq, Repr

/-- The bytes a terminal call writes to stderr. -/
def TermCall.output : TermCall → String
  | .eraseCall ansi => clearOut ansi
  | .renderCall ansi text => redrawOut ansi text

/-- `StatusLine::refresh` (src/lib.rs lines 157-159): calls
`redraw(self.options.enable_ansi_escapes, &self.state.data)` and touches
nothing else; the returned pair is the state after the call and the terminal
calls it performed. -/
def refresh {D : Type} (render : D → String) (sl : StatusLine D) :
    StatusLine D × List TermCall :=
  (sl, [.renderCall sl.options.enable_ansi_escapes (render sl.state.data)])

/-- `StatusLine::set_visible` (src/lib.rs lines 162-169): swaps the
visibility flag, capturing the previous value; erases on the
visible-to-hidden transition, redraws on the hidden-to-visible transition,
does nothing otherwise. -/
def set_visible {D : Type} (render : D → String) (sl : StatusLine D) (visible : Bool) :
    StatusLine D × List TermCall :=
  let was_visible := sl.state.visible
  let sl2 : StatusLine D := ⟨⟨sl.state.data, visible⟩, sl.options⟩
  if !visible && was_visible then
    (sl2, [.eraseCall sl.options.enable_ansi_escapes])
  else if visible && !was_visible then
    (sl2, [.renderCall sl.options.enable_ansi_escapes (render sl2.state.data)])
  else
    (sl2, [])

/-- `StatusLine::is_visible` (src/lib.rs lines 172-174): reads the flag. -/
def is_visible {D : Type} (sl : StatusLine D) : Bool :=
  sl.state.visible

/-- `Deref for StatusLine` (src/lib.rs lines 177-182): exposes the wrapped data. -/
def deref {D : Type} (sl : StatusLine D) : D :=
  sl.state.data

/-- `Drop for StatusLine` (src/lib.rs lines 184-190): the terminal calls made
on disposal — `clear` if currently visible, nothing otherwise. -/
def dropCalls {D : Type} (sl : StatusLine D) : List TermCall :=
  if is_visible sl then [.eraseCall sl.options.enable_ansi_escapes] else []

/-- Events of the background thread spawned by `with_options`
(src/lib.rs lines 142-149). -/
inductive Event where
  | checkAlive (strong_count : Nat)
  | redrawEvent (ansi : Bool) (text : String)
  | sleepEvent (period_ms : Nat)
  | exitEvent
deriving DecidableEq, Repr

/-- The background loop of `with_options` (src/lib.rs lines 142-149):
`while Arc::strong_count(&state_ref) > 1 { if visible { redraw }; sleep }`.
Each list element of `obs` gives the `Arc` strong count and visibility flag
the thread observes on one iteration; the result is the ordered trace of
events the thread performs. An exhausted observation list means the loop is
still running (the trace ends without an exit). -/
def loopTrace {D : Type} (options : Options) (render : D → String) (d : D) :
    List (Nat × Bool) → List Event
  | [] => []
  | (strong_count, vis) :: rest =>
    if 1 < strong_count then
      Event.checkAlive strong_count
        :: ((if vis then [Event.redrawEvent options.enable_ansi_escapes (render d)] else [])
            ++ Event.sleepEvent options.refresh_period
            :: loopTrace options render d rest)
    else
      [Event.checkAlive strong_count, Event.exitEvent]

/-- True when some redraw event precedes the first sleep event of the trace. -/
def redrawBeforeFirstSleep : List Event → Bool
  | [] => false
  | Event.sleepEvent _ :: _ => false
  | Event.redrawEvent _ _ :: _ => true
  | _ :: rest => redrawBeforeFirstSleep rest

/-- Apply a sequence of `set_visible` calls, threading the state. -/
def applySetVisibles {D : Type} (render : D → String) (sl : StatusLine D) :
    List Bool → StatusLine D
  | [] => sl
  | v :: vs => applySetVisibles render (set_visible render sl v).1 vs

/-- The operations of the system that touch the shared state. -/
inductive ApiOp where
  | refreshOp
  | setVisibleOp (visible : Bool)
  | isVisibleOp
  | disposeOp
  | backgroundTick
deriving DecidableEq, Repr

/-- State after one operation. `refresh`, `is_visible`, disposal and a
background-task redraw iteration only read the shared state (the background
loop body, src/lib.rs lines 143-148, loads `visible` and reads `data` but
stores nothing); `set_visible` swaps the flag. -/
def applyOp {D : Type} (render : D → String) (sl : StatusLine D) : ApiOp → StatusLine D
  | .refreshOp => (refresh render sl).1
  | .setVisibleOp v => (set_visible render sl v).1
  | .isVisibleOp => sl
  | .disposeOp => sl
  | .backgroundTick => sl

/-- State after a sequence of operations. -/
def applyOps {D : Type} (render : D → String) (sl : StatusLine D) :
    List ApiOp → StatusLine D
  | [] => sl
  | op :: ops => applyOps render (applyOp render sl op) ops

/-! ## Helper lemmas -/

theorem set_visible_state {D : Type} (render : D → String) (sl : StatusLine D) (v : Bool) :
    (set_visible render sl v).1 = ⟨⟨sl.state.data, v⟩, sl.options⟩ := by
  cases hv : sl.state.visible <;> cases v <;> simp [set_visible, hv]

theorem applySetVisibles_visible {D : Type} (render : D → String) :
    ∀ (vs : List Bool) (sl : StatusLine D),
      is_visible (applySetVisibles render sl vs) = vs.getLastD (is_visible sl)
  | [], _ => rfl
  | v :: vs, sl => by
    rw [applySetVisibles, applySetVisibles_visible render vs, List.getLastD_cons]
    rw [set_visible_state, is_visible]

theorem applyOp_preserves {D : Type} (render : D → String) (sl : StatusLine D)
    (op : ApiOp) :
    (applyOp render sl op).state.data = sl.state.data
    ∧ (applyOp render sl op).options = sl.options := by
  cases op with
  | setVisibleOp v => rw [applyOp, set_visible_state]; exact ⟨rfl, rfl⟩
  | refreshOp => exact ⟨rfl, rfl⟩
  | isVisibleOp => exact ⟨rfl, rfl⟩
  | disposeOp => exact ⟨rfl, rfl⟩
  | backgroundTick => exact ⟨rfl, rfl⟩

theorem applyOps_preserves {D : Type} (render : D → String) :
    ∀ (ops : List ApiOp) (sl : StatusLine D),
      (applyOps render sl ops).state.data = sl.state.data
      ∧ (applyOps render sl ops).options = sl.options
  | [], _ => ⟨rfl, rfl⟩
  | op :: ops, sl => by
    rw [applyOps]
    have h1 := applyOps_preserves render ops (applyOp render sl op)
    have h2 := applyOp_preserves render sl op
    exact ⟨h1.1.trans h2.1, h1.2.trans h2.2⟩

/-! ## Claim theorems: Renderer -/

/-- C6: with ANSI enabled, `redraw` writes, in order, the erase-below-cursor
sequence, the rendered text, the move-to-start-of-line sequence, and then
exactly one move-up-one-line sequence per newline character of the rendered
text; with ANSI disabled it writes only the text plus a trailing newline,
with no erasure or cursor sequences. -/
theorem redraw_output_spec (contents : String) :
    redrawOut true contents
      = EraseDown ++ (contents ++ (CursorLeft
          ++ concatAll (List.replicate (newlineCount contents) CursorPrevLine)))
    ∧ redrawOut false contents = contents ++ "\n" := by
  refine ⟨?_, ?_⟩
  · show concatAll (redrawWrites true contents) = _
    simp [redrawWrites, concatAll, String.append_assoc]
  · show concatAll (redrawWrites false contents) = _
    simp [redrawWrites, concatAll, String.append_empty]

/-- C7: `clear` with ANSI enabled writes exactly the erase-below-cursor
sequence (a single write of `EraseDown` and nothing else); with ANSI disabled
it writes nothing at all. -/
theorem clear_output_spec :
    clearOut true = EraseDown ∧ clearOut false = ""
    ∧ clearWrites true = [EraseDown] ∧ clearWrites false = [] := by
  refine ⟨?_, rfl, rfl, rfl⟩
  show concatAll [EraseDown] = EraseDown
  simp [concatAll, String.append_empty]

/-- C10: terminal output is a deterministic function of the ANSI setting and
the rendered text. Two status lines (even over different data types, with
different visibility flags, refresh periods and data) whose options agree on
`enable_ansi_escapes` and whose data render to the same text produce identical
refresh output, identical per-write byte sequences for `redraw`, and identical
`clear` output. -/
theorem terminal_output_deterministic {D1 D2 : Type}
    (render1 : D1 → String) (render2 : D2 → String)
    (sl1 : StatusLine D1) (sl2 : StatusLine D2)
    (hansi : sl1.options.enable_ansi_escapes = sl2.options.enable_ansi_escapes)
    (htext : render1 sl1.state.data = render2 sl2.state.data) :
    (refresh render1 sl1).2.map TermCall.output
      = (refresh render2 sl2).2.map TermCall.output
    ∧ redrawWrites sl1.options.enable_ansi_escapes (render1 sl1.state.data)
      = redrawWrites sl2.options.enable_ansi_escapes (render2 sl2.state.data)
    ∧ clearOut sl1.options.enable_ansi_escapes
      = clearOut sl2.options.enable_ansi_escapes := by
  refine ⟨?_, ?_, ?_⟩ <;> simp [refresh, TermCall.output, hansi, htext]

/-- Witness for C10: two concrete status lines differing in data type, data,
visibility and refresh period, but equal in ANSI setting and rendered text,
produce the same refresh output bytes. -/
theorem terminal_output_deterministic_witness :
    (refresh (fun _ : Nat => "a\nb") ⟨⟨5, true⟩, ⟨100, true, true⟩⟩).2.map
        TermCall.output
      = (refresh (fun _ : Bool => "a\nb") ⟨⟨false, false⟩, ⟨7, false, true⟩⟩).2.map
        TermCall.output :=
  (terminal_output_deterministic (fun _ : Nat => "a\nb") (fun _ : Bool => "a\nb")
    ⟨⟨5, true⟩, ⟨100, true, true⟩⟩ ⟨⟨false, false⟩, ⟨7, false, true⟩⟩ rfl rfl).1

/-! ## Claim theorems: Status Controller API -/

/-- C4: `refresh` performs exactly one render, of the current snapshot with
the current ANSI setting, unconditionally in the visibility flag (the
statement holds for every state, hidden or visible, and the emitted bytes are
exactly the `redraw` output), and it leaves the state — in particular the
visibility flag — unchanged. -/
theorem refresh_spec {D : Type} (render : D → String) (sl : StatusLine D) :
    (refresh render sl).2.map TermCall.output
      = [redrawOut sl.options.enable_ansi_escapes (render sl.state.data)]
    ∧ (refresh render sl).2.length = 1
    ∧ is_visible (refresh render sl).1 = is_visible sl
    ∧ (refresh render sl).1 = sl := by
  refine ⟨?_, rfl, rfl, rfl⟩
  simp [refresh, TermCall.output]

/-- C3: `set_visible v` swaps the visibility flag to `v` (the new state's
flag is `v`); on the visible-to-hidden transition it performs exactly one
erase call, on the hidden-to-visible transition exactly one render call of
the current snapshot (synchronously, as part of the call itself), and when
the previous value equals the new one it performs no terminal call at all. -/
theorem set_visible_spec {D : Type} (render : D → String) (sl : StatusLine D)
    (v : Bool) :
    is_visible (set_visible render sl v).1 = v
    ∧ (is_visible sl = true → v = false →
        (set_visible render sl v).2
          = [TermCall.eraseCall sl.options.enable_ansi_escapes])
    ∧ (is_visible sl = false → v = true →
        (set_visible render sl v).2
          = [TermCall.renderCall sl.options.enable_ansi_escapes
              (render sl.state.data)])
    ∧ (is_visible sl = v → (set_visible render sl v).2 = []) := by
  cases hv : sl.state.visible <;> cases v <;>
    simp [set_visible, is_visible, hv]

/-- Witness for C3: on a concrete visible status line, `set_visible false`
performs exactly one erase call. -/
theorem set_visible_spec_witness :
    (set_visible (fun _ : Nat => "t") ⟨⟨0, true⟩, ⟨100, true, true⟩⟩ false).2
      = [TermCall.eraseCall true] :=
  (set_visible_spec (fun _ : Nat => "t") ⟨⟨0, true⟩, ⟨100, true, true⟩⟩
    false).2.1 rfl rfl

/-- C8: after any sequence of `set_visible` calls on a freshly constructed
status line, `is_visible` returns the argument of the last call, and for the
empty sequence it returns the `initially_visible` option; in particular it is
`false` immediately after constructing with `initially_visible = false`. -/
theorem is_visible_last_call_wins {D : Type} (render : D → String) (d : D)
    (options : Options) (vs : List Bool) :
    is_visible (applySetVisibles render (with_options d options) vs)
      = vs.getLastD options.initially_visible
    ∧ is_visible (with_options d
        ⟨options.refresh_period, false, options.enable_ansi_escapes⟩) = false := by
  refine ⟨?_, rfl⟩
  rw [applySetVisibles_visible]
  rfl

/-- C9: no operation (refresh, set_visible, is_visible, disposal, or a
background-task iteration) ever modifies the wrapped data or the options:
dereferencing the handle after any sequence of operations yields exactly the
data supplied at construction, and the only field of the shared state any
operation mutates is the visibility flag. -/
theorem frame_only_visibility_mutated {D : Type} (render : D → String) (d : D)
    (options : Options) (ops : List ApiOp) :
    deref (applyOps render (with_options d options) ops) = d
    ∧ (∀ (sl : StatusLine D) (op : ApiOp),
        (applyOp render sl op).state.data = sl.state.data
        ∧ (applyOp render sl op).options = sl.options) := by
  refine ⟨?_, fun sl op => applyOp_preserves render sl op⟩
  rw [deref, (applyOps_preserves render ops (with_options d options)).1]
  rfl

/-! ## Write-failure semantics -/

theorem runWritesFrom_fail :
    ∀ (ws : List String) (k j : Nat) (acc : String), j < ws.length →
      (runWritesFrom k (some (k + j)) ws acc).isAborted = true := by
  intro ws
  induction ws with
  | nil => intro k j acc h; simp at h
  | cons w ws ih =>
    intro k j acc h
    cases j with
    | zero => simp [runWritesFrom, WriteResult.isAborted]
    | succ j =>
      have hne : ¬ ((some (k + (j + 1)) : Option Nat) = some k) := by
        simp only [Option.some.injEq]
        omega
      rw [runWritesFrom, if_neg hne]
      have hk : k + (j + 1) = (k + 1) + j := by omega
      rw [hk]
      exact ih (k + 1) j (acc ++ w) (by simpa using h)

theorem runWritesFrom_none :
    ∀ (ws : List String) (k : Nat) (acc : String),
      runWritesFrom k none ws acc = .ok (acc ++ concatAll ws)
  | [], _, acc => by simp [runWritesFrom, concatAll, String.append_empty]
  | w :: ws, k, acc => by
    rw [runWritesFrom, if_neg (by simp)]
    rw [runWritesFrom_none ws (k + 1) (acc ++ w)]
    simp [concatAll, String.append_assoc]

/-- C2: a failed write during `redraw` or `clear` always aborts (the
`.unwrap()` panics): whichever of the write calls fails, the run ends in the
aborted outcome, never a silent success — and when no write fails, the run
succeeds with exactly the full output, so there is no retry or partial
recovery path in between. -/
theorem write_failure_aborts (ansi : Bool) (contents : String) (i : Nat) :
    (i < (redrawWrites ansi contents).length →
      (runWrites (some i) (redrawWrites ansi contents)).isAborted = true)
    ∧ (i < (clearWrites ansi).length →
      (runWrites (some i) (clearWrites ansi)).isAborted = true)
    ∧ runWrites none (redrawWrites ansi contents)
        = .ok (redrawOut ansi contents)
    ∧ runWrites none (clearWrites ansi) = .ok (clearOut ansi) := by
  refine ⟨fun h => ?_, fun h => ?_, ?_, ?_⟩
  · simpa [runWrites] using runWritesFrom_fail (redrawWrites ansi contents) 0 i "" h
  · simpa [runWrites] using runWritesFrom_fail (clearWrites ansi) 0 i "" h
  · rw [runWrites, runWritesFrom_none, String.empty_append, redrawOut]
  · rw [runWrites, runWritesFrom_none, String.empty_append, clearOut]

/-- Witness for C2: on a concrete two-line render with ANSI enabled, a failure
of the very first write call aborts the run. -/
theorem write_failure_aborts_witness :
    (runWrites (some 0) (redrawWrites true "a\nb")).isAborted = true :=
  (write_failure_aborts true "a\nb" 0).1 (by decide)

/-! ## Background loop -/

theorem loopTrace_append {D : Type} (options : Options) (render : D → String)
    (d : D) :
    ∀ (pre obs : List (Nat × Bool)), (∀ p ∈ pre, 1 < p.1) →
      loopTrace options render d (pre ++ obs)
        = loopTrace options render d pre ++ loopTrace options render d obs
  | [], obs, _ => by simp [loopTrace]
  | (c, v) :: pre, obs, h => by
    have hc : 1 < c := h (c, v) (List.mem_cons_self _ _)
    have hrest : ∀ p ∈ pre, 1 < p.1 := fun p hp => h p (List.mem_cons_of_mem _ hp)
    have ih := loopTrace_append options render d pre obs hrest
    simp only [List.cons_append, loopTrace, if_pos hc]
    simp [List.append_eq, ih, List.append_assoc]

theorem exit_not_mem_of_alive {D : Type} (options : Options) (render : D → String)
    (d : D) :
    ∀ (pre : List (Nat × Bool)), (∀ p ∈ pre, 1 < p.1) →
      Event.exitEvent ∉ loopTrace options render d pre
  | [], _ => by simp [loopTrace]
  | (c, v) :: pre, h => by
    have hc : 1 < c := h (c, v) (List.mem_cons_self _ _)
    have hrest : ∀ p ∈ pre, 1 < p.1 := fun p hp => h p (List.mem_cons_of_mem _ hp)
    have ihp := exit_not_mem_of_alive options render d pre hrest
    simp only [loopTrace, if_pos hc]
    cases v <;> simp_all

/-- C1 counterexample: at the very first iteration of the background loop,
with the handle alive (strong count 2) and the line visible, a redraw event
occurs BEFORE the first sleep event — the first redraw does not wait for a
refresh period and needs no manual `refresh()` call. -/
theorem first_redraw_before_first_sleep :
    redrawBeforeFirstSleep
      (loopTrace ⟨100, true, true⟩ (fun _ : Unit => "status") () [(2, true)])
      = true := by
  rfl

/-- C1 (amended): the background loop performs its liveness and visibility
check BEFORE sleeping, in every iteration: whenever the first observed strong
count exceeds 1, the first event is the liveness check; if the flag is
visible a redraw occurs before the first sleep (so the first redraw can
happen immediately at construction), and if it is hidden the check is
immediately followed by the sleep with no redraw in between. -/
theorem background_loop_checks_before_sleep {D : Type} (options : Options)
    (render : D → String) (d : D) (strong_count : Nat) (vis : Bool)
    (rest : List (Nat × Bool)) (h : 1 < strong_count) :
    (loopTrace options render d ((strong_count, vis) :: rest)).head?
      = some (Event.checkAlive strong_count)
    ∧ (vis = true →
        redrawBeforeFirstSleep
          (loopTrace options render d ((strong_count, vis) :: rest)) = true)
    ∧ (vis = false →
        (loopTrace options render d ((strong_count, vis) :: rest)).take 2
          = [Event.checkAlive strong_count,
             Event.sleepEvent options.refresh_period]) := by
  cases vis <;> simp [loopTrace, if_pos h, redrawBeforeFirstSleep]

/-- Witness for the amended C1: concrete first iteration with strong count 3
and the line visible shows a redraw before the first sleep. -/
theorem background_loop_checks_before_sleep_witness :
    redrawBeforeFirstSleep
      (loopTrace ⟨50, true, false⟩ (fun _ : Nat => "p") 0 [(3, true)]) = true :=
  (background_loop_checks_before_sleep ⟨50, true, false⟩ (fun _ : Nat => "p") 0
    3 true [] (by decide)).2.1 rfl

/-- C5: disposing the handle performs an erase call if and only if the status
line is visible at disposal (and performs nothing otherwise); and the
background task, after any run of iterations on which an external handle
still exists (strong count above 1), exits at exactly the first iteration on
which the count has dropped to the task-only threshold — the whole trace ends
with the liveness check followed by the exit, with no render, sleep, or any
other event afterwards regardless of later observations — while it never
exits as long as the count stays above 1. -/
theorem dispose_and_termination {D : Type} (render : D → String) (d : D)
    (options : Options) (sl : StatusLine D)
    (pre post : List (Nat × Bool)) (strong_count : Nat) (vis : Bool) :
    (dropCalls sl = [TermCall.eraseCall sl.options.enable_ansi_escapes]
      ↔ is_visible sl = true)
    ∧ (dropCalls sl = [] ↔ is_visible sl = false)
    ∧ ((∀ p ∈ pre, 1 < p.1) → strong_count ≤ 1 →
        loopTrace options render d (pre ++ (strong_count, vis) :: post)
          = loopTrace options render d pre
            ++ [Event.checkAlive strong_count, Event.exitEvent])
    ∧ ((∀ p ∈ pre, 1 < p.1) →
        Event.exitEvent ∉ loopTrace options render d pre) := by
  refine ⟨?_, ?_, fun hpre hc => ?_, fun hpre => exit_not_mem_of_alive options render d pre hpre⟩
  · cases h : sl.state.visible <;> simp [dropCalls, is_visible, h]
  · cases h : sl.state.visible <;> simp [dropCalls, is_visible, h]
  · rw [loopTrace_append options render d pre ((strong_count, vis) :: post) hpre]
    have hnc : ¬ 1 < strong_count := by omega
    simp [loopTrace, if_neg hnc]

/-- Witness for C5: a concrete run — one alive-but-hidden iteration, then the
count drops to 1 — yields check, sleep, check, exit and nothing more; and a
concrete visible handle erases on drop. -/
theorem dispose_and_termination_witness :
    loopTrace ⟨100, true, true⟩ (fun _ : Unit => "w") () [(2, false), (1, true)]
      = [Event.checkAlive 2, Event.sleepEvent 100, Event.checkAlive 1,
         Event.exitEvent]
    ∧ dropCalls (⟨⟨(), true⟩, ⟨100, true, true⟩⟩ : StatusLine Unit)
      = [TermCall.eraseCall true] := by
  have h := dispose_and_termination (fun _ : Unit => "w") () ⟨100, true, true⟩
    (⟨⟨(), true⟩, ⟨100, true, true⟩⟩ : StatusLine Unit) [(2, false)] [] 1 true
  exact ⟨(h.2.2.1 (by decide) (by decide)).trans (by decide), h.1.mpr rfl⟩

end StatusLineSpec
